import Mathlib

/-!
# Playlist-Player: verification of the resume-state store and playback session

Shallow embedding of the history store (`src/history.py`) and the playback
session / debounced writer (`src/player.py`) of the Playlist-Player
repository, together with theorems settling the frozen claims C1–C10.

Conventions of the embedding:
* File contents are modelled by `FileData`: a history file is absent,
  present-but-unparseable, or parses to a `HRec`.  Two files with the same
  `FileData` are byte-identical (serialisation of a record is deterministic).
* JSON records are modelled by `HRec`: the three session fields are
  `Option`-valued (a key may be missing from the JSON object, as in the
  empty dict `{}` that `history.load` returns on double failure); unrelated
  keys such as `display_name` are carried verbatim.
* Seconds are modelled as `Int`: positions are only ever stored, compared
  and copied by the claims under study, never arithmetically mixed, so the
  fractional part of the Python floats is irrelevant to control flow.
* Python `list[i]` indexing (negative indices wrap, out-of-range raises
  `IndexError`) is `pyIndex`; a raised exception is an `Option PyErr`
  result component.
* Monotonic time is `Nat`; `time.monotonic()` is nondecreasing, so the
  code's `now - last >= interval` test is truncated `Nat` subtraction
  applied to `now ≥ last`.
-/

namespace PlaylistPlayer

/-- Python exceptions that the modelled code can raise. -/
inductive PyErr where
  | indexError
  | valueError
deriving DecidableEq, Repr

/-- `sorted(...)`-style insertion of a string into a sorted list
(models one step of Python's `sorted`). -/
def insertSorted (x : String) : List String → List String
  | [] => [x]
  | y :: ys => if x ≤ y then x :: y :: ys else y :: insertSorted x ys

/-- Model of Python `sorted(finished)` on a duplicate-free list. -/
def sortStr (l : List String) : List String :=
  l.foldr insertSorted []

/-- Python `set.add` on a list-as-set: insert if absent. -/
def setInsert (l : List String) (x : String) : List String :=
  if x ∈ l then l else l ++ [x]

/-- Python `set(iterable)`: deduplicate a list. -/
def listToSet (l : List String) : List String :=
  l.foldl setInsert []

/-- Python `list[i]`: non-negative indices from the front, negative
indices wrap once from the back, anything else raises `IndexError`. -/
def pyIndex {α : Type} (l : List α) (i : Int) : Except PyErr α :=
  let j : Int := if i < 0 then i + l.length else i
  if 0 ≤ j then
    match l.get? j.toNat with
    | some a => Except.ok a
    | none => Except.error PyErr.indexError
  else Except.error PyErr.indexError

/-- Python `min` on two ints. -/
def pymin (a b : Int) : Int := if a ≤ b then a else b

/-- Python `max` on two ints. -/
def pymax (a b : Int) : Int := if a ≤ b then b else a

/-! ## History store (`src/history.py`) -/

/-- One on-disk JSON history record (`history.py` schema).  Each of the
keys the code reads may be absent; `display_name` and any other unrelated
keys are carried through untouched (`extra` stands for further keys). -/
structure HRec where
  track_index : Option Int := none
  position : Option Int := none
  finished : Option (List String) := none
  display_name : Option String := none
  extra : List (String × String) := []
deriving DecidableEq, Repr

/-- The `{}` returned by `history.load` when both primary and backup fail. -/
def emptyRec : HRec := {}

/-- Contents of one file slot: missing, present but not valid JSON
(`bytes` is the raw text), or parsing to a record. -/
inductive FileData where
  | absent
  | malformed (bytes : String)
  | record (r : HRec)
deriving DecidableEq, Repr

/-- The three file slots `history.py` touches for one playlist:
`<pl>.history.json` (primary), `<pl>.history.json.bak` (backup, the
global `BAK_PATH` recomputed by `_path`), and `<pl>.history.tmp`
(the temp file of `_atomic_write`). -/
structure FS where
  primary : FileData := FileData.absent
  backup : FileData := FileData.absent
  tmp : FileData := FileData.absent
deriving DecidableEq, Repr

/-- `history.load(pl)`: read the primary; on any read/parse failure fall
back to the backup; a parsing backup is copied over the primary (repair)
and returned; otherwise return the empty dict.  Every exception branch of
the source is caught, so the embedding is a total function (the
"never raises" part of the contract).  Returns the record together with
the possibly repaired file system. -/
def loadFS (fs : FS) : HRec × FS :=
  match fs.primary with
  | FileData.record r => (r, fs)
  | _ =>
    match fs.backup with
    | FileData.record rb => (rb, { fs with primary := FileData.record rb })
    | _ => (emptyRec, fs)

/-- The first `k` steps of `history._atomic_write(path, data)`, for crash
simulation.  Step 1: write+fsync the temp file; step 2: if the primary
exists, copy it to the backup; step 3: atomically rename the temp file
over the primary.  `k = 3` is the completed write. -/
def atomicWriteSteps (fs : FS) (r : HRec) (k : Nat) : FS :=
  let fs1 := if 1 ≤ k then { fs with tmp := FileData.record r } else fs
  let fs2 :=
    if 2 ≤ k then
      if fs1.primary ≠ FileData.absent then { fs1 with backup := fs1.primary } else fs1
    else fs1
  if 3 ≤ k then { fs2 with primary := fs2.tmp, tmp := FileData.absent } else fs2

/-- `history._atomic_write` run to completion. -/
def atomicWrite (fs : FS) (r : HRec) : FS :=
  atomicWriteSteps fs r 3

/-- The field merge performed by `history.save`: overwrite exactly
`track_index`, `position` and `finished` (the latter sorted, as by
Python's `sorted`), keeping every other key of the record. -/
def mergeRec (r : HRec) (ti pos : Int) (fin : List String) : HRec :=
  { r with
    track_index := some ti
    position := some pos
    finished := some (sortStr fin) }

/-- `history.save(pl, track_index, position, finished)`: re-load the
on-disk record (with repair), merge the three fields into it, and
atomically write the result. -/
def saveFS (fs : FS) (ti : Int) (pos : Int) (fin : List String) : FS :=
  atomicWrite (loadFS fs).2 (mergeRec (loadFS fs).1 ti pos fin)

/-- `history.save` interrupted after `k` steps of its `_atomic_write`
(the in-memory load/merge has already happened; a repair performed by
`load` has already reached the disk). -/
def saveSteps (fs : FS) (ti pos : Int) (fin : List String) (k : Nat) : FS :=
  atomicWriteSteps (loadFS fs).2 (mergeRec (loadFS fs).1 ti pos fin) k

/-! ## Keyed file store: one `FS` per playlist path -/

/-- Look up the history files of one playlist (a playlist never touched
has all slots absent). -/
def filesGet (files : List (String × FS)) (pl : String) : FS :=
  match files.lookup pl with
  | some fs => fs
  | none => {}

/-- Replace the history files of one playlist. -/
def filesSet (files : List (String × FS)) (pl : String) (fs : FS) :
    List (String × FS) :=
  (pl, fs) :: files.filter (fun e => e.1 ≠ pl)

/-- `history.load` against the keyed store. -/
def historyLoad (files : List (String × FS)) (pl : String) :
    HRec × List (String × FS) :=
  ((loadFS (filesGet files pl)).1,
   filesSet files pl (loadFS (filesGet files pl)).2)

/-- `history.save` against the keyed store. -/
def historySave (files : List (String × FS)) (pl : String)
    (ti pos : Int) (fin : List String) : List (String × FS) :=
  filesSet files pl (saveFS (filesGet files pl) ti pos fin)

/-! ## Playback session (`src/player.py`, class `VLCGaplessPlayer`)

The media engine is abstracted by an oracle `env : String → Bool` telling
whether a given track opens/plays successfully; the source never inspects
the return value of `player.play()`, so `env` influences only the
`playing` field of the modelled player, never control flow. -/

/-- The live `vlc.MediaPlayer`: which media it holds, its current time in
seconds, and whether `play()` succeeded. -/
structure Player where
  path : String
  pos : Int
  playing : Bool
deriving DecidableEq, Repr

/-- A `PendingSnapshot` as built by `VLCGaplessPlayer._snapshot`. -/
structure Snap where
  plPath : Option String
  trackIndex : Int
  position : Int
  finished : List String
deriving DecidableEq, Repr

/-- The mutable state of one `VLCGaplessPlayer`, together with the history
files on disk (`files`). -/
structure PSt where
  aoutMode : String := "default"
  plPath : Option String := none
  playlist : List String := []
  idx : Int := 0
  finished : List String := []
  player : Option Player := none
  pending : Option Snap := none
  lastWrite : Nat := 0
  closed : Bool := false
  writeInterval : Nat := 5
  nextPending : Bool := false
  lastTickPos : Int := 0
  files : List (String × FS) := []
deriving DecidableEq, Repr

/-- `VLCGaplessPlayer.position()`: current time, 0 when no player. -/
def PSt.position (st : PSt) : Int :=
  match st.player with
  | some p => p.pos
  | none => 0

/-- `VLCGaplessPlayer._snapshot()`. -/
def PSt.snapshot (st : PSt) : Snap :=
  { plPath := st.plPath
    trackIndex := st.idx
    position := st.position
    finished := st.finished }

/-- `VLCGaplessPlayer._mark_dirty(force=...)`: store the current snapshot
in the pending slot; a forced mark additionally zeroes the last-write
time so the next writer wake writes. -/
def markDirty (st : PSt) (force : Bool) : PSt :=
  { st with
    pending := some st.snapshot
    lastWrite := if force then 0 else st.lastWrite }

/-- `VLCGaplessPlayer._set_media(path, resume=r)`: stop the old player,
create a new one on `path`, start it (`env path` reports whether that
succeeded), seek to `resume`, then force a dirty mark. -/
def setMedia (env : String → Bool) (st : PSt) (path : String)
    (resume : Int) : PSt :=
  markDirty { st with player := some ⟨path, resume, env path⟩ } true

/-- `VLCGaplessPlayer._mark_finished()`: add the track at the current
index to the finished set (only when a playlist is loaded). -/
def markFinished (st : PSt) : PSt × Option PyErr :=
  if st.plPath.isSome ∧ st.playlist ≠ [] then
    match pyIndex st.playlist st.idx with
    | Except.ok t => ({ st with finished := setInsert st.finished t }, none)
    | Except.error e => (st, some e)
  else (st, none)

/-- `VLCGaplessPlayer.next_track()`: mark the current track finished; if
a successor index exists, advance to it and open it unconditionally. -/
def nextTrack (env : String → Bool) (st : PSt) : PSt × Option PyErr :=
  match markFinished st with
  | (st1, some e) => (st1, some e)
  | (st1, none) =>
    if st1.idx + 1 < (st1.playlist.length : Int) then
      let st2 := { st1 with idx := st1.idx + 1 }
      match pyIndex st2.playlist st2.idx with
      | Except.ok t => (setMedia env st2 t 0, none)
      | Except.error e => (st2, some e)
    else (st1, none)

/-- `VLCGaplessPlayer.prev_track()`: if the index is positive, decrement
it and open that track (at position 0). -/
def prevTrack (env : String → Bool) (st : PSt) : PSt × Option PyErr :=
  if 0 < st.idx then
    let st1 := { st with idx := st.idx - 1 }
    match pyIndex st1.playlist st1.idx with
    | Except.ok t => (setMedia env st1 t 0, none)
    | Except.error e => (st1, some e)
  else (st, none)

/-- `VLCGaplessPlayer.flush_history()`: under the lock, take a fresh
snapshot when a playlist is loaded and clear the pending slot; outside
the lock, save the snapshot (when one was taken).  Returns the state and
the snapshot written, if any.  (A snapshot is only built with
`plPath.isSome`, so its own `plPath` is some.) -/
def flushHistory (st : PSt) : PSt × Option Snap :=
  let snap := if st.plPath.isSome then some st.snapshot else none
  let st1 := { st with pending := none }
  match snap with
  | some s =>
    let files' :=
      match s.plPath with
      | some pl => historySave st1.files pl s.trackIndex s.position s.finished
      | none => st1.files
    ({ st1 with files := files' }, some s)
  | none => (st1, none)

/-- `VLCGaplessPlayer.seek(s)`: set the player time, force a dirty mark,
then flush synchronously. -/
def seek (st : PSt) (s : Int) : PSt × Option Snap :=
  match st.player with
  | some p =>
    flushHistory (markDirty { st with player := some { p with pos := s } } true)
  | none => (st, none)

/-- The history record that `load_playlist` reads: the previous state is
flushed first, so the read goes against the store as left by that
flush. -/
def lpHist (st : PSt) (pl : String) : HRec :=
  (historyLoad (flushHistory st).1.files pl).1

/-- The session state after the first half of
`VLCGaplessPlayer.load_playlist(pl, tracks)`: previous state flushed,
playlist installed, history record adopted (`idx` set to
`min(ti, max(0, len(tracks)-1))`, finished set adopted), just before
the track at `idx` is opened. -/
def lpState (st : PSt) (pl : String) (tracks : List String) : PSt :=
  let st0 := (flushHistory st).1
  let hist := lpHist st pl
  { st0 with
    plPath := some pl
    playlist := tracks
    files := (historyLoad st0.files pl).2
    idx := pymin (hist.track_index.getD 0) (pymax 0 ((tracks.length : Int) - 1))
    finished := listToSet (hist.finished.getD []) }

/-- `VLCGaplessPlayer.load_playlist(pl, tracks)`: flush the previous
session, install the new playlist, read its history record, clamp the
index with `min(ti, max(0, len-1))`, adopt position and finished set,
then open the track at that index with the saved resume position.
Indexing an empty (or out-of-range) playlist raises `IndexError`. -/
def loadPlaylist (env : String → Bool) (st : PSt) (pl : String)
    (tracks : List String) : PSt × Option PyErr :=
  match pyIndex (lpState st pl tracks).playlist (lpState st pl tracks).idx with
  | Except.ok t =>
    (setMedia env (lpState st pl tracks) t ((lpHist st pl).position.getD 0), none)
  | Except.error e => (lpState st pl tracks, some e)

/-- `VLCGaplessPlayer.close()`: set the closed flag and flush. -/
def close (st : PSt) : PSt :=
  (flushHistory { st with closed := true }).1

/-- One wake of `VLCGaplessPlayer._writer_loop` at monotonic time `now`:
under the lock, stop if closed, skip if nothing pending, otherwise write
exactly when the debounce interval has elapsed since the last write,
recording the write time.  The pending slot is left as-is.  Returns the
state and the snapshot written, if any. -/
def writerWake (st : PSt) (now : Nat) : PSt × Option Snap :=
  if st.closed then (st, none)
  else
    match st.pending with
    | none => (st, none)
    | some snap =>
      if st.writeInterval ≤ now - st.lastWrite then
        let files' :=
          match snap.plPath with
          | some pl => historySave st.files pl snap.trackIndex snap.position snap.finished
          | none => st.files
        ({ st with lastWrite := now, files := files' }, some snap)
      else (st, none)

/-- An event of the debounced-writer timeline: a soft mark, a forced
mark, or a writer wake at a given monotonic time. -/
inductive WEvent where
  | soft
  | force
  | wake (now : Nat)
deriving DecidableEq, Repr

/-- Run a sequence of writer events, counting the disk writes performed. -/
def runWriter (st : PSt) : List WEvent → PSt × Nat
  | [] => (st, 0)
  | e :: es =>
    let (st1, w) :=
      match e with
      | WEvent.soft => (markDirty st false, 0)
      | WEvent.force => (markDirty st true, 0)
      | WEvent.wake now =>
        let (st', os) := writerWake st now
        (st', if os.isSome then 1 else 0)
    let (st2, n) := runWriter st1 es
    (st2, w + n)

/-- Valid audio-output modes (`AOUT_OPTS` keys). -/
def AOUT_MODES : List String :=
  ["default", "directsound", "wasapi_shared", "wasapi_exclusive"]

/-- `VLCGaplessPlayer._restart_instance()`: remember playlist and
position, stop the player, recreate the VLC instance (`makeOK` tells
whether `vlc.Instance` succeeds), then reload the playlist, re-clamp the
index to the remembered one and re-seek.  Returns the (possibly
partially mutated) state and whether the restart completed without an
exception. -/
def restartInstance (env : String → Bool) (makeOK : Bool) (st : PSt) :
    PSt × Bool :=
  let curPl := st.plPath
  let curTracks := st.playlist
  let curIdx := st.idx
  let curPos := st.position
  let st1 := { st with player := none }
  if !makeOK then (st1, false)
  else
    match curPl with
    | none => (st1, true)
    | some pl =>
      match loadPlaylist env st1 pl curTracks with
      | (st2, some _) => (st2, false)
      | (st2, none) =>
        let st3 := { st2 with
          idx := pymin curIdx (pymax 0 ((st2.playlist.length : Int) - 1)) }
        ((seek st3 curPos).1, true)

/-- `VLCGaplessPlayer.set_output(mode)`: reject unknown modes with
`ValueError` before any mutation; same mode is a no-op; otherwise adopt
the mode and restart the instance, rolling the mode back (failure is
printed, not raised) when the restart fails. -/
def setOutput (env : String → Bool) (st : PSt) (mode : String)
    (makeOK : Bool) : PSt × Option PyErr :=
  if mode ∉ AOUT_MODES then (st, some PyErr.valueError)
  else if mode = st.aoutMode then (st, none)
  else
    let st1 := { st with aoutMode := mode }
    let (st2, ok) := restartInstance env makeOK st1
    if ok then (st2, none)
    else ({ st2 with aoutMode := st.aoutMode }, none)

/-- `VLCGaplessPlayer.tick()`: dispatch a pending end-of-track
notification to `next_track`, then mark the heartbeat snapshot (forced
plus synchronous flush on a position jump larger than 2 s, soft
otherwise). -/
def tick (env : String → Bool) (st : PSt) : PSt × Option PyErr :=
  let r :=
    if st.nextPending then nextTrack env { st with nextPending := false }
    else (st, none)
  match r with
  | (st1, some e) => (st1, some e)
  | (st1, none) =>
    if st1.player.isSome ∧ st1.plPath.isSome then
      let cur := st1.position
      let st2 :=
        if 2 < (cur - st1.lastTickPos).natAbs then
          (flushHistory (markDirty st1 true)).1
        else markDirty st1 false
      ({ st2 with lastTickPos := cur }, none)
    else (st1, none)

/-- The effective stored track index that `load_playlist(pl, ...)` sees:
`hist.get("track_index", 0)` on the record read after the initial
flush. -/
def storedTI (st : PSt) (pl : String) : Int :=
  (lpHist st pl).track_index.getD 0

/-! ## Concrete scenarios used by counterexamples and witnesses -/

/-- Media engine in which every track opens successfully. -/
def envAll : String → Bool := fun _ => true

/-- Media engine in which exactly track `"b"` fails to open. -/
def envNoB : String → Bool := fun s => s != "b"

/-- A session on a 3-track playlist, currently at the first track. -/
def st3a : PSt :=
  { plPath := some "pl", playlist := ["a", "b", "c"], idx := 0,
    player := some ⟨"a", 0, true⟩ }

/-- A session on a 3-track playlist at the third track, 10 s in. -/
def st3c10 : PSt :=
  { plPath := some "pl", playlist := ["a", "b", "c"], idx := 2,
    player := some ⟨"c", 10, true⟩ }

/-- A session on a 3-track playlist at the third track, 2 s in. -/
def st3c2 : PSt :=
  { plPath := some "pl", playlist := ["a", "b", "c"], idx := 2,
    player := some ⟨"c", 2, true⟩ }

/-- A freshly written-out session used for writer-loop traces: playlist
loaded, nothing pending, last write at monotonic time 0, debounce
interval 5 s. -/
def stW : PSt :=
  { plPath := some "pl", playlist := ["a"], idx := 0,
    player := some ⟨"a", 1, true⟩ }

/-- A stored record with a negative track index. -/
def recNeg : HRec :=
  { track_index := some (-1), position := some 7, finished := some ["x"] }

/-- History files holding a record with a negative stored track index. -/
def filesNeg : List (String × FS) :=
  [("pl", { primary := FileData.record recNeg })]

/-- A stored record that resumes at track 1, 42 s. -/
def recT1 : HRec :=
  { track_index := some 1, position := some 42, finished := some ["/a.flac"] }

/-- History files holding the `recT1` record. -/
def filesT1 : List (String × FS) :=
  [("pl", { primary := FileData.record recT1 })]

/-- An idle session (no playlist loaded) over the `filesNeg` store. -/
def stNeg : PSt := { files := filesNeg }

/-- An idle session (no playlist loaded) over the `filesT1` store. -/
def stT1 : PSt := { files := filesT1 }

/-- A backup record with a display name. -/
def recBak : HRec :=
  { track_index := some 2, position := some 9, display_name := some "Mix" }

/-- A parseable primary record carrying unrelated fields. -/
def recGood : HRec :=
  { track_index := some 1, position := some 3, display_name := some "Mix",
    extra := [("stars", "5")] }

/-- A file store whose primary is corrupt while the backup parses. -/
def fsCorrupt : FS :=
  { primary := FileData.malformed "xx", backup := FileData.record recBak }

/-- A file store whose primary parses. -/
def fsGood : FS :=
  { primary := FileData.record recGood }

/-- A file store where both the primary and the backup are corrupt. -/
def fsBad : FS :=
  { primary := FileData.malformed "xx", backup := FileData.malformed "yy" }

/-- Does a file slot hold parseable JSON? (`json.loads` succeeds) -/
def FileData.parsed : FileData → Bool
  | FileData.record _ => true
  | _ => false

/-! ## Helper lemmas -/

/-- A parseable primary is returned as-is, with no file-system change. -/
theorem loadFS_of_record (fs : FS) (r : HRec) (h : fs.primary = FileData.record r) :
    loadFS fs = (r, fs) := by
  unfold loadFS
  rw [h]

/-- A completed `_atomic_write` leaves the new record in the primary. -/
theorem atomicWrite_primary (fs : FS) (r : HRec) :
    (atomicWrite fs r).primary = FileData.record r := by
  unfold atomicWrite atomicWriteSteps
  simp only []
  norm_num
  split <;> rfl

/-- Interrupting `_atomic_write` before the final rename never changes
the primary (only the temp file and the backup have been touched). -/
theorem atomicWriteSteps_primary_stable (fs : FS) (r : HRec) (k : Nat)
    (h : k < 3) : (atomicWriteSteps fs r k).primary = fs.primary := by
  unfold atomicWriteSteps
  have h3 : ¬ 3 ≤ k := by omega
  simp only [h3, if_false]
  split
  all_goals first
    | rfl
    | (split <;> first
        | rfl
        | (split <;> rfl))

/-- Looking up a playlist right after storing its files returns them. -/
theorem filesGet_filesSet (files : List (String × FS)) (pl : String) (fs : FS) :
    filesGet (filesSet files pl fs) pl = fs := by
  simp [filesGet, filesSet, List.lookup]

/-- In-bounds non-negative indices succeed in Python indexing. -/
theorem pyIndex_ok_of_bounds {α : Type} (l : List α) (i : Int)
    (h0 : 0 ≤ i) (hl : i < (l.length : Int)) :
    ∃ t, pyIndex l i = Except.ok t ∧ l.get? i.toNat = some t := by
  unfold pyIndex
  have hni : ¬ i < 0 := by omega
  have hlt : i.toNat < l.length := by omega
  rcases List.get?_eq_some.2 ⟨hlt, rfl⟩ with h
  refine ⟨l.get ⟨i.toNat, hlt⟩, ?_, h⟩
  simp only [hni, if_false, h0, if_true, h]

/-- Python indexing on the empty list always raises `IndexError`. -/
theorem pyIndex_nil {α : Type} (i : Int) :
    pyIndex ([] : List α) i = Except.error PyErr.indexError := by
  unfold pyIndex
  split <;> simp

/-! ## Claim C4 -/

/-- C4: for every playlist path, History Store `load` never raises to its
caller (the embedding `loadFS` is a total function covering every
exception branch of the source): when the primary file fails to parse or
read, it falls back to the backup; if the backup parses, the backup is
copied over the primary (repair) and the backup's content is returned;
if the backup also fails, the empty record is returned, whose effective
`track_index`, `position` and `finished` values are `0`, `0` and the
empty set. -/
theorem load_recovery (fs : FS) (r rb : HRec) :
    (fs.primary = FileData.record r → loadFS fs = (r, fs)) ∧
    (fs.primary.parsed = false → fs.backup = FileData.record rb →
       loadFS fs = (rb, { fs with primary := FileData.record rb })) ∧
    (fs.primary.parsed = false → fs.backup.parsed = false →
       loadFS fs = (emptyRec, fs)) ∧
    (emptyRec.track_index.getD 0 = 0 ∧ emptyRec.position.getD 0 = 0 ∧
       emptyRec.finished.getD [] = []) := by
  refine ⟨fun h => loadFS_of_record fs r h, ?_, ?_, by simp [emptyRec]⟩
  · intro hp hb
    cases hf : fs.primary with
    | record x => rw [hf] at hp; simp [FileData.parsed] at hp
    | absent => simp [loadFS, hf, hb]
    | malformed b => simp [loadFS, hf, hb]
  · intro hp hb
    cases hf : fs.primary with
    | record x => rw [hf] at hp; simp [FileData.parsed] at hp
    | absent =>
      cases hg : fs.backup with
      | record x => rw [hg] at hb; simp [FileData.parsed] at hb
      | absent => simp [loadFS, hf, hg]
      | malformed b => simp [loadFS, hf, hg]
    | malformed b =>
      cases hg : fs.backup with
      | record x => rw [hg] at hb; simp [FileData.parsed] at hb
      | absent => simp [loadFS, hf, hg]
      | malformed c => simp [loadFS, hf, hg]

/-- Witness for C4: the three recovery behaviours at concrete stores: a
parseable primary is returned unchanged, a corrupt primary with a
parseable backup returns the backup and repairs the primary, and a
doubly corrupt store returns the empty record. -/
theorem load_recovery_wit :
    loadFS fsGood = (recGood, fsGood) ∧
    loadFS fsCorrupt = (recBak, { fsCorrupt with primary := FileData.record recBak }) ∧
    loadFS fsBad = (emptyRec, fsBad) :=
  ⟨(load_recovery fsGood recGood recBak).1 (by rfl),
   (load_recovery fsCorrupt recGood recBak).2.1 (by decide) (by rfl),
   (load_recovery fsBad recGood recBak).2.2.1 (by decide) (by decide)⟩

/-! ## Claim C5 -/

/-- Counterexample to C5 as stated: `history.save` begins with
`history.load`, and when the primary is corrupt while the backup parses,
that load repairs the primary (copies the backup over it) before the
temp-file/rename steps even start.  Interrupting the save at that point
(`k = 0` steps of `_atomic_write` performed, hence before the rename at
step 3) leaves a primary that differs from its pre-save bytes, so the
rename is not the only externally visible mutation of the primary during
`save`. -/
theorem save_repair_before_rename_cex :
    (0 : Nat) < 3 ∧
    (saveSteps fsCorrupt 4 8 [] 0).primary ≠ fsCorrupt.primary := by
  decide

/-- C5 (amended): within `_atomic_write` itself the rename is the only
mutation of the primary — a crash after any `k < 3` of its steps leaves
the primary exactly as the write found it, and only the completed write
installs the new record; consequently, whenever the primary parses (so
the initial load performs no backup repair), a crash at any point of
`save` before the rename leaves the primary byte-identical to its
pre-save state. -/
theorem save_crash_safety (fs : FS) (r : HRec) (ti pos : Int)
    (fin : List String) (k : Nat) :
    (k < 3 → (atomicWriteSteps fs r k).primary = fs.primary) ∧
    (fs.primary = FileData.record r → k < 3 →
       (saveSteps fs ti pos fin k).primary = fs.primary) ∧
    (atomicWrite fs r).primary = FileData.record r := by
  refine ⟨fun h => atomicWriteSteps_primary_stable fs r k h, ?_,
    atomicWrite_primary fs r⟩
  intro hp hk
  unfold saveSteps
  rw [loadFS_of_record fs r hp]
  exact atomicWriteSteps_primary_stable fs (mergeRec r ti pos fin) k hk

/-- Witness for C5 (amended): crash after writing the temp file (`k = 1`,
before the rename) on a parseable primary leaves the primary unchanged;
the completed write installs the new record. -/
theorem save_crash_safety_wit :
    (atomicWriteSteps fsGood recBak 1).primary = fsGood.primary ∧
    (saveSteps fsGood 4 8 [] 1).primary = fsGood.primary ∧
    (atomicWrite fsGood recBak).primary = FileData.record recBak :=
  ⟨(save_crash_safety fsGood recBak 4 8 [] 1).1 (by decide),
   (save_crash_safety fsGood recGood 4 8 [] 1).2.1 (by rfl) (by decide),
   (save_crash_safety fsGood recBak 4 8 [] 1).2.2⟩

/-! ## Claim C9 -/

/-- C9: `save(handle, track_index, position, finished)` on a parseable
on-disk record updates exactly the three fields `track_index`,
`position` and `finished` of the stored record; `mergeRec` is a record
update of those three fields only, so every other field (in particular
`display_name`, and any `extra` key) keeps its prior on-disk value. -/
theorem save_frame_effect (fs : FS) (r : HRec) (ti pos : Int)
    (fin : List String) (h : fs.primary = FileData.record r) :
    (saveFS fs ti pos fin).primary = FileData.record (mergeRec r ti pos fin) ∧
    (mergeRec r ti pos fin).track_index = some ti ∧
    (mergeRec r ti pos fin).position = some pos ∧
    (mergeRec r ti pos fin).finished = some (sortStr fin) ∧
    (mergeRec r ti pos fin).display_name = r.display_name ∧
    (mergeRec r ti pos fin).extra = r.extra := by
  have hl := loadFS_of_record fs r h
  refine ⟨?_, by simp [mergeRec], by simp [mergeRec], by simp [mergeRec],
    by simp [mergeRec], by simp [mergeRec]⟩
  unfold saveFS
  rw [hl]
  exact atomicWrite_primary ..

/-- Witness for C9: saving over the concrete record `recGood` updates the
three fields and keeps its `display_name` and `extra` keys. -/
theorem save_frame_effect_wit :
    (saveFS fsGood 7 11 ["t2", "t1"]).primary =
      FileData.record (mergeRec recGood 7 11 ["t2", "t1"]) ∧
    (mergeRec recGood 7 11 ["t2", "t1"]).display_name = some "Mix" ∧
    (mergeRec recGood 7 11 ["t2", "t1"]).extra = [("stars", "5")] :=
  ⟨(save_frame_effect fsGood recGood 7 11 ["t2", "t1"] (by rfl)).1,
   (save_frame_effect fsGood recGood 7 11 ["t2", "t1"] (by rfl)).2.2.2.2.1,
   (save_frame_effect fsGood recGood 7 11 ["t2", "t1"] (by rfl)).2.2.2.2.2⟩

/-! ## Session-level helper lemmas -/

/-- A successful Python index is only possible on a non-empty list. -/
theorem pyIndex_ok_ne_nil {α : Type} (l : List α) (i : Int) (t : α)
    (h : pyIndex l i = Except.ok t) : l ≠ [] := by
  intro hnil
  rw [hnil, pyIndex_nil] at h
  cases h

/-- `flush_history` changes only the pending slot and the files on disk;
every other session field survives it. -/
theorem flushHistory_state (st : PSt) :
    (flushHistory st).1.plPath = st.plPath ∧
    (flushHistory st).1.playlist = st.playlist ∧
    (flushHistory st).1.idx = st.idx ∧
    (flushHistory st).1.finished = st.finished ∧
    (flushHistory st).1.player = st.player ∧
    (flushHistory st).1.pending = none ∧
    (flushHistory st).1.lastWrite = st.lastWrite ∧
    (flushHistory st).1.closed = st.closed ∧
    (flushHistory st).1.writeInterval = st.writeInterval := by
  unfold flushHistory
  cases hp : st.plPath <;> simp [hp, PSt.snapshot]

/-- With a playlist loaded, `flush_history` saves the current snapshot
into that playlist's history files. -/
theorem flushHistory_files_of_some (st : PSt) (pl : String)
    (h : st.plPath = some pl) :
    (flushHistory st).1.files =
      historySave st.files pl st.idx st.position st.finished := by
  simp [flushHistory, h, PSt.snapshot]

/-- The primary file right after a keyed `history.save`. -/
theorem historySave_primary (files : List (String × FS)) (pl : String)
    (ti pos : Int) (fin : List String) :
    (filesGet (historySave files pl ti pos fin) pl).primary =
      FileData.record (mergeRec (loadFS (filesGet files pl)).1 ti pos fin) := by
  unfold historySave
  rw [filesGet_filesSet]
  unfold saveFS
  exact atomicWrite_primary ..

/-- The first half of `load_playlist` installs the playlist path. -/
theorem lpState_plPath (st : PSt) (pl : String) (tracks : List String) :
    (lpState st pl tracks).plPath = some pl := rfl

/-- The first half of `load_playlist` installs the track list. -/
theorem lpState_playlist (st : PSt) (pl : String) (tracks : List String) :
    (lpState st pl tracks).playlist = tracks := rfl

/-- The index adopted by `load_playlist`:
`min(stored, max(0, len(tracks)-1))`. -/
theorem lpState_idx (st : PSt) (pl : String) (tracks : List String) :
    (lpState st pl tracks).idx =
      pymin (storedTI st pl) (pymax 0 ((tracks.length : Int) - 1)) := rfl

/-! ## Claim C1 -/

/-- Counterexample to C1: on the 3-track playlist `["a", "b", "c"]`
where track `"b"` fails to open, `next_track()` from track `"a"` lands
on index 1 (track `"b"`), not on index 2, and `"b"` is not in the
finished set — the source advances exactly one index and never examines
whether the new track opened. -/
theorem next_track_no_skip_cex :
    envNoB "b" = false ∧
    (nextTrack envNoB st3a).1.idx = 1 ∧
    ¬ ((nextTrack envNoB st3a).1.idx = 2 ∧
       "b" ∈ (nextTrack envNoB st3a).1.finished) := by
  decide

/-- C1 (amended): a track advance marks the just-played track as
finished and, when a successor index exists, moves to `idx+1` and opens
that track unconditionally — there is no forward scan, a track that
fails to open is neither skipped nor marked finished, and the engine
state records the failed `play()` only in the `playing` flag; when
already at the last track, only the finished-mark happens and the
engine is left as it was (not stopped). -/
theorem next_track_advance (env : String → Bool) (st : PSt)
    (cur nxt : String)
    (hcur : pyIndex st.playlist st.idx = Except.ok cur)
    (hpl : st.plPath.isSome = true) :
    (st.idx + 1 < (st.playlist.length : Int) →
       pyIndex st.playlist (st.idx + 1) = Except.ok nxt →
       nextTrack env st =
         ({ st with
              idx := st.idx + 1
              finished := setInsert st.finished cur
              player := some ⟨nxt, 0, env nxt⟩
              pending := some ⟨st.plPath, st.idx + 1, 0, setInsert st.finished cur⟩
              lastWrite := 0 }, none)) ∧
    (¬ st.idx + 1 < (st.playlist.length : Int) →
       nextTrack env st = ({ st with finished := setInsert st.finished cur }, none)) := by
  have hne : st.playlist ≠ [] := pyIndex_ok_ne_nil st.playlist st.idx cur hcur
  have hmf : markFinished st = ({ st with finished := setInsert st.finished cur }, none) := by
    simp [markFinished, hpl, hne, hcur]
  constructor
  · intro hlt hnxt
    simp [nextTrack, hmf, hlt, hnxt, setMedia, markDirty, PSt.snapshot, PSt.position]
  · intro hge
    simp [nextTrack, hmf, hge]

/-- Witness for C1 (amended): with all tracks opening, `next_track` from
index 0 of the 3-track playlist advances to index 1 marking `"a"`
finished; from the last index 2 it only marks `"c"` finished. -/
theorem next_track_advance_wit :
    (nextTrack envAll st3a).1.idx = 1 ∧
    (nextTrack envAll st3a).1.finished = ["a"] ∧
    (nextTrack envAll st3c2).1.idx = 2 ∧
    (nextTrack envAll st3c2).1.finished = ["c"] ∧
    (nextTrack envAll st3c2).1.player = st3c2.player := by
  have h1 := (next_track_advance envAll st3a "a" "b" (by rfl) (by rfl)).1
    (by decide) (by rfl)
  have h2 := (next_track_advance envAll st3c2 "c" "c" (by rfl) (by rfl)).2
    (by decide)
  rw [h1, h2]
  exact ⟨rfl, rfl, rfl, rfl, rfl⟩

/-! ## Claim C2 -/

/-- Counterexample to C2: at index 2 with position 10 s (above the
claimed 5-second threshold), `prev_track()` moves to index 1 — it does
not restart the current track; the source has no threshold logic at
all. -/
theorem prev_track_threshold_cex :
    st3c10.position = 10 ∧
    (prevTrack envAll st3c10).1.idx = 1 ∧
    ¬ ((prevTrack envAll st3c10).1.idx = 2) := by
  decide

/-- C2 (amended): `prev_track()` ignores the playback position entirely:
whenever the index is positive it moves to `idx-1` and opens that track
at position 0 (so from `idx=2` it lands on `idx=1` both at 10 s and at
2 s); at index 0 it does nothing. -/
theorem prev_track_moves (env : String → Bool) (st : PSt) (t : String) :
    (0 < st.idx → pyIndex st.playlist (st.idx - 1) = Except.ok t →
       prevTrack env st =
         ({ st with
              idx := st.idx - 1
              player := some ⟨t, 0, env t⟩
              pending := some ⟨st.plPath, st.idx - 1, 0, st.finished⟩
              lastWrite := 0 }, none)) ∧
    (st.idx ≤ 0 → prevTrack env st = (st, none)) := by
  constructor
  · intro h ht
    simp [prevTrack, h, ht, setMedia, markDirty, PSt.snapshot, PSt.position]
  · intro h
    have hn : ¬ 0 < st.idx := by omega
    simp [prevTrack, hn]

/-- Witness for C2 (amended): from index 2 at 10 s and from index 2 at
2 s, `prev_track` lands on index 1 with the player at position 0. -/
theorem prev_track_moves_wit :
    (prevTrack envAll st3c10).1.idx = 1 ∧
    (prevTrack envAll st3c10).1.position = 0 ∧
    (prevTrack envAll st3c2).1.idx = 1 := by
  have h1 := (prev_track_moves envAll st3c10 "b").1 (by decide) (by rfl)
  have h2 := (prev_track_moves envAll st3c2 "b").1 (by decide) (by rfl)
  rw [h1, h2]
  exact ⟨rfl, rfl, rfl⟩

/-! ## Writer-loop helper lemmas -/

/-- A writer wake writes exactly when the session is not closed, a
snapshot is pending, and the debounce interval has elapsed since the
last write. -/
theorem writerWake_isSome_iff (st : PSt) (now : Nat) :
    (writerWake st now).2.isSome = true ↔
      (st.closed = false ∧ st.pending.isSome = true ∧
       st.writeInterval ≤ now - st.lastWrite) := by
  cases hc : st.closed <;> cases hp : st.pending <;>
    by_cases ht : st.writeInterval ≤ now - st.lastWrite <;>
      simp [writerWake, hc, hp, ht]

/-- A writing wake emits the pending snapshot, records the wake time as
the last-write time, and leaves the pending slot (and the rest of the
writer state) untouched. -/
theorem writerWake_write_state (st : PSt) (now : Nat)
    (h : (writerWake st now).2.isSome = true) :
    (writerWake st now).2 = st.pending ∧
    (writerWake st now).1.pending = st.pending ∧
    (writerWake st now).1.lastWrite = now ∧
    (writerWake st now).1.writeInterval = st.writeInterval ∧
    (writerWake st now).1.closed = st.closed := by
  rcases (writerWake_isSome_iff st now).1 h with ⟨hc, hp, ht⟩
  rcases Option.isSome_iff_exists.1 hp with ⟨snap, hsnap⟩
  simp [writerWake, hc, hsnap, ht]

/-! ## Claim C3 -/

/-- Counterexample to C3: from a state with last write at time 0 and a
5-second debounce interval, two soft marks followed by wakes at times 6
and 12 produce two disk writes, not exactly one — the writer loop never
clears the pending slot after a write (as the last two conjuncts show
directly), so the same snapshot is re-written once per elapsed interval. -/
theorem debounce_one_write_cex :
    (runWriter stW [WEvent.soft, WEvent.soft, WEvent.wake 6, WEvent.wake 12]).2 = 2 ∧
    ¬ ((runWriter stW [WEvent.soft, WEvent.soft, WEvent.wake 6, WEvent.wake 12]).2 = 1) ∧
    (writerWake (markDirty stW false) 6).2.isSome = true ∧
    (writerWake (markDirty stW false) 6).1.pending = some stW.snapshot := by
  decide

/-- C3 (amended): a soft mark stores the snapshot and sets dirty without
resetting the debounce timer; each writer wake performs a disk write
exactly when a snapshot is pending (and the session is open) and the
debounce interval has elapsed since the last write; a completed write
records the write time but does NOT clear the pending snapshot, so while
at most one write can occur within any window shorter than the interval
(N soft marks within one interval thus produce one write at the first
eligible wake), the same snapshot is written again once per further
elapsed interval until a flush clears the slot; an intervening forced
mark zeroes the last-write time, so the very next wake (at any monotonic
time ≥ the interval) performs a write regardless of elapsed time since
the previous write. -/
theorem writer_debounce (st : PSt) (now t2 : Nat) :
    (markDirty st false).lastWrite = st.lastWrite ∧
    (markDirty st false).pending = some st.snapshot ∧
    (markDirty st true).lastWrite = 0 ∧
    (markDirty st true).pending = some st.snapshot ∧
    ((writerWake st now).2.isSome = true ↔
       (st.closed = false ∧ st.pending.isSome = true ∧
        st.writeInterval ≤ now - st.lastWrite)) ∧
    ((writerWake st now).2.isSome = true →
       (writerWake st now).2 = st.pending ∧
       (writerWake st now).1.pending = st.pending ∧
       (writerWake st now).1.lastWrite = now) ∧
    ((writerWake st now).2.isSome = true →
       (writerWake (writerWake st now).1 t2).2.isSome = true →
       st.writeInterval ≤ t2 - now) ∧
    (st.closed = false → st.writeInterval ≤ now →
       (writerWake (markDirty st true) now).2 = some st.snapshot) := by
  refine ⟨rfl, rfl, rfl, rfl, writerWake_isSome_iff st now,
    fun h => ⟨(writerWake_write_state st now h).1,
              (writerWake_write_state st now h).2.1,
              (writerWake_write_state st now h).2.2.1⟩, ?_, ?_⟩
  · intro h1 h2
    obtain ⟨-, -, hlw, hint, -⟩ := writerWake_write_state st now h1
    have h5 := (writerWake_isSome_iff (writerWake st now).1 t2).1 h2
    rw [hlw, hint] at h5
    exact h5.2.2
  · intro hc hnow
    have hsome : (writerWake (markDirty st true) now).2.isSome = true := by
      refine (writerWake_isSome_iff (markDirty st true) now).2 ⟨hc, rfl, ?_⟩
      simpa using hnow
    have := (writerWake_write_state (markDirty st true) now hsome).1
    rw [this]
    rfl

/-- Witness for C3 (amended): after a forced mark on the concrete state
`stW`, the wake at time 6 ≥ interval 5 writes the snapshot; and the
concrete double-write of the counterexample trace indeed has its two
writes a full interval apart (5 ≤ 12 − 6). -/
theorem writer_debounce_wit :
    (writerWake (markDirty stW true) 6).2 = some stW.snapshot ∧
    stW.writeInterval ≤ 12 - 6 := by
  refine ⟨(writer_debounce stW 6 12).2.2.2.2.2.2.2 (by rfl) (by decide), ?_⟩
  exact (writer_debounce (markDirty stW false) 6 12).2.2.2.2.2.2.1
    (by decide) (by decide)

/-- Closing a session with a loaded playlist persists a record carrying
the session's current index and position. -/
theorem close_persists (st : PSt) (pl : String) (h : st.plPath = some pl) :
    ∃ r, (filesGet (close st).files pl).primary = FileData.record r ∧
         r.track_index = some st.idx ∧ r.position = some st.position := by
  have hplT : ({ st with closed := true } : PSt).plPath = some pl := h
  have hfiles := flushHistory_files_of_some { st with closed := true } pl hplT
  refine ⟨mergeRec (loadFS (filesGet st.files pl)).1 st.idx st.position st.finished,
    ?_, by simp [mergeRec], by simp [mergeRec]⟩
  show (filesGet (flushHistory { st with closed := true }).1.files pl).primary = _
  rw [hfiles]
  exact historySave_primary st.files pl st.idx st.position st.finished

/-! ## Claim C6 -/

/-- Counterexample to C6: in a session with a playlist loaded and
nothing pending, `flush_history()` still performs a disk write — the
source takes a fresh snapshot whenever `_pl_path` is set, regardless of
whether a snapshot is pending, so "when nothing is pending, flush
performs no write" fails. -/
theorem flush_without_pending_cex :
    st3a.pending = none ∧ (flushHistory st3a).2.isSome = true := by
  decide

/-- C6 (amended): `flush_history()` writes a fresh snapshot of the
current state whenever a playlist is loaded — even when no snapshot is
pending — and clears the pending slot before returning; only with no
playlist loaded does it perform no write.  In particular,
`load_playlist` immediately followed by `close()` persists a record
whose `track_index` and `position` match the just-loaded resume
values. -/
theorem flush_semantics (env : String → Bool) (st : PSt) (pl : String)
    (tracks : List String) :
    (st.plPath = none → flushHistory st = ({ st with pending := none }, none)) ∧
    (st.plPath.isSome = true →
       (flushHistory st).2 = some st.snapshot ∧
       (flushHistory st).1.pending = none) ∧
    ((loadPlaylist env st pl tracks).2 = none →
       ∃ r, (filesGet (close (loadPlaylist env st pl tracks).1).files pl).primary =
              FileData.record r ∧
            r.track_index = some (loadPlaylist env st pl tracks).1.idx ∧
            r.position = some (loadPlaylist env st pl tracks).1.position) := by
  refine ⟨?_, ?_, ?_⟩
  · intro h
    simp [flushHistory, h]
  · intro h
    rcases Option.isSome_iff_exists.1 h with ⟨pl', hpl⟩
    simp [flushHistory, hpl, PSt.snapshot]
  · intro h
    cases hsc : pyIndex (lpState st pl tracks).playlist (lpState st pl tracks).idx with
    | error e =>
      rw [show loadPlaylist env st pl tracks = (lpState st pl tracks, some e) from by
        simp [loadPlaylist, hsc]] at h
      cases h
    | ok t =>
      have hload : loadPlaylist env st pl tracks =
          (setMedia env (lpState st pl tracks) t ((lpHist st pl).position.getD 0), none) := by
        simp [loadPlaylist, hsc]
      rw [hload]
      exact close_persists (setMedia env (lpState st pl tracks) t
        ((lpHist st pl).position.getD 0)) pl rfl

/-- Witness for C6 (amended): an idle session performs no write on
flush; the loaded session `st3a` flushes its fresh snapshot; and loading
the 3-track playlist over the `recT1` history then closing persists a
record matching the resumed index and position. -/
theorem flush_semantics_wit :
    flushHistory stNeg = ({ stNeg with pending := none }, none) ∧
    (flushHistory st3a).2 = some st3a.snapshot ∧
    (∃ r, (filesGet (close (loadPlaylist envAll stT1 "pl" ["a", "b", "c"]).1).files
             "pl").primary = FileData.record r ∧
          r.track_index = some (loadPlaylist envAll stT1 "pl" ["a", "b", "c"]).1.idx ∧
          r.position = some (loadPlaylist envAll stT1 "pl" ["a", "b", "c"]).1.position) :=
  ⟨(flush_semantics envAll stNeg "pl" []).1 (by rfl),
   ((flush_semantics envAll st3a "pl" []).2.1 (by rfl)).1,
   (flush_semantics envAll stT1 "pl" ["a", "b", "c"]).2.2 (by decide)⟩

/-! ## Claim C7 -/

/-- Counterexample to C7: with a stored record whose `track_index` is
`-1` and a 3-track playlist, `load_playlist` succeeds (Python's negative
indexing makes `playlist[-1]` the last track) and leaves `idx = -1`,
outside `[0, len(tracks)-1]` — `min(ti, max(0, len-1))` clamps only from
above, never from below. -/
theorem load_negative_index_cex :
    storedTI stNeg "pl" = -1 ∧
    (loadPlaylist envAll stNeg "pl" ["a", "b", "c"]).2 = none ∧
    (loadPlaylist envAll stNeg "pl" ["a", "b", "c"]).1.idx = -1 ∧
    ¬ (0 ≤ (loadPlaylist envAll stNeg "pl" ["a", "b", "c"]).1.idx) := by
  decide

/-- C7 (amended): after `load_playlist` on a non-empty track list the
session index is `min(stored, len(tracks)-1)`: it lies in
`[0, len(tracks)-1]` whenever the stored `track_index` is non-negative,
but a negative stored `track_index` is adopted unclamped as the
index. -/
theorem load_playlist_clamp (env : String → Bool) (st : PSt) (pl : String)
    (tracks : List String) :
    (tracks ≠ [] → 0 ≤ storedTI st pl →
       (loadPlaylist env st pl tracks).2 = none ∧
       0 ≤ (loadPlaylist env st pl tracks).1.idx ∧
       (loadPlaylist env st pl tracks).1.idx < (tracks.length : Int)) ∧
    (storedTI st pl < 0 →
       (loadPlaylist env st pl tracks).1.idx = storedTI st pl) := by
  constructor
  · intro hne hti
    have hlen : 1 ≤ (tracks.length : Int) := by
      have := List.length_pos.2 hne
      omega
    have h0 : 0 ≤ (lpState st pl tracks).idx := by
      rw [lpState_idx]
      unfold pymin pymax
      split <;> split <;> omega
    have hlt : (lpState st pl tracks).idx < (tracks.length : Int) := by
      rw [lpState_idx]
      unfold pymin pymax
      split <;> split <;> omega
    obtain ⟨t, ht, -⟩ := pyIndex_ok_of_bounds tracks (lpState st pl tracks).idx h0
      (by rw [← lpState_playlist st pl tracks] at hlt ⊢; exact hlt)
    have hsc : pyIndex (lpState st pl tracks).playlist (lpState st pl tracks).idx =
        Except.ok t := by
      rw [lpState_playlist]
      exact ht
    refine ⟨by simp [loadPlaylist, hsc], ?_, ?_⟩ <;>
      simp [loadPlaylist, hsc, setMedia, markDirty] <;> assumption
  · intro hti
    have hidx : (lpState st pl tracks).idx = storedTI st pl := by
      rw [lpState_idx]
      unfold pymin pymax
      split <;> split <;> omega
    cases hsc : pyIndex (lpState st pl tracks).playlist (lpState st pl tracks).idx with
    | error e =>
      simp only [loadPlaylist, hsc]
      exact hidx
    | ok t =>
      simp only [loadPlaylist, hsc, setMedia, markDirty]
      exact hidx

/-- Witness for C7 (amended): loading the 3-track playlist over the
stored index 1 succeeds in bounds, and over the stored index `-1`
adopts `-1`. -/
theorem load_playlist_clamp_wit :
    (loadPlaylist envAll stT1 "pl" ["a", "b", "c"]).2 = none ∧
    0 ≤ (loadPlaylist envAll stT1 "pl" ["a", "b", "c"]).1.idx ∧
    (loadPlaylist envAll stT1 "pl" ["a", "b", "c"]).1.idx < 3 ∧
    (loadPlaylist envAll stNeg "pl" ["a", "b", "c"]).1.idx = storedTI stNeg "pl" :=
  ⟨((load_playlist_clamp envAll stT1 "pl" ["a", "b", "c"]).1 (by decide) (by decide)).1,
   ((load_playlist_clamp envAll stT1 "pl" ["a", "b", "c"]).1 (by decide) (by decide)).2.1,
   ((load_playlist_clamp envAll stT1 "pl" ["a", "b", "c"]).1 (by decide) (by decide)).2.2,
   (load_playlist_clamp envAll stNeg "pl" ["a", "b", "c"]).2 (by decide)⟩

/-! ## Claim C10 -/

/-- C10: `load_playlist` is not total: with an empty track list and a
stored record whose `track_index` is non-negative, the clamped index is
`min(ti, max(0, -1)) = 0` and opening `playlist[0]` of the empty list
raises `IndexError`, so callers must supply a non-empty track list. -/
theorem load_empty_playlist_raises (env : String → Bool) (st : PSt)
    (pl : String) (h : 0 ≤ storedTI st pl) :
    (loadPlaylist env st pl []).2 = some PyErr.indexError := by
  have hidx : (lpState st pl []).idx = 0 := by
    rw [lpState_idx]
    unfold pymin pymax
    simp only [List.length_nil, Nat.cast_zero]
    norm_num
    omega
  have hsc : pyIndex (lpState st pl []).playlist (lpState st pl []).idx =
      Except.error PyErr.indexError := by
    rw [lpState_playlist, hidx]
    exact pyIndex_nil 0
  simp [loadPlaylist, hsc]

/-- Witness for C10: loading an empty track list over the stored
record with `track_index = 1` raises `IndexError`. -/
theorem load_empty_playlist_raises_wit :
    (loadPlaylist envAll stT1 "pl" []).2 = some PyErr.indexError :=
  load_empty_playlist_raises envAll stT1 "pl" (by decide)

/-! ## Restart-path helper lemmas -/

/-- `flush_history` keeps the audio-output mode. -/
theorem flush_keeps_aoutMode (st : PSt) :
    (flushHistory st).1.aoutMode = st.aoutMode := by
  unfold flushHistory
  cases hp : st.plPath <;> simp [hp]

/-- `flush_history` keeps the playlist path. -/
theorem flush_keeps_plPath (st : PSt) :
    (flushHistory st).1.plPath = st.plPath := by
  unfold flushHistory
  cases hp : st.plPath <;> simp [hp]

/-- `flush_history` keeps the track list. -/
theorem flush_keeps_playlist (st : PSt) :
    (flushHistory st).1.playlist = st.playlist := by
  unfold flushHistory
  cases hp : st.plPath <;> simp [hp]

/-- `flush_history` keeps the index. -/
theorem flush_keeps_idx (st : PSt) :
    (flushHistory st).1.idx = st.idx := by
  unfold flushHistory
  cases hp : st.plPath <;> simp [hp]

/-- `flush_history` keeps the player. -/
theorem flush_keeps_player (st : PSt) :
    (flushHistory st).1.player = st.player := by
  unfold flushHistory
  cases hp : st.plPath <;> simp [hp]

/-- The first half of `load_playlist` keeps the audio-output mode. -/
theorem lpState_aoutMode (st : PSt) (pl : String) (tracks : List String) :
    (lpState st pl tracks).aoutMode = st.aoutMode := by
  show (flushHistory st).1.aoutMode = st.aoutMode
  exact flush_keeps_aoutMode st

/-- A `load_playlist` call that raised no exception took the success
branch: it opened some track via `_set_media` with the saved resume
position. -/
theorem loadPlaylist_ok_shape (env : String → Bool) (st : PSt) (pl : String)
    (tracks : List String) (h : (loadPlaylist env st pl tracks).2 = none) :
    ∃ t, loadPlaylist env st pl tracks =
      (setMedia env (lpState st pl tracks) t ((lpHist st pl).position.getD 0), none) := by
  cases hsc : pyIndex (lpState st pl tracks).playlist (lpState st pl tracks).idx with
  | error e =>
    rw [show loadPlaylist env st pl tracks = (lpState st pl tracks, some e) from by
      simp [loadPlaylist, hsc]] at h
    cases h
  | ok t => exact ⟨t, by simp [loadPlaylist, hsc]⟩

/-! ## Claim C8 -/

/-- Counterexample to C8: on a session that is playing (`st3a.player` is
set), `set_output` to a valid new mode whose engine rebuild fails rolls
the mode back, but playback is NOT left intact: `_restart_instance` has
already stopped the player before `vlc.Instance` failed, and the failure
path never restores it, so the session ends with `player = none`. -/
theorem set_output_stops_playback_cex :
    st3a.player.isSome = true ∧
    (setOutput envAll st3a "directsound" false).2 = none ∧
    (setOutput envAll st3a "directsound" false).1.aoutMode = "default" ∧
    (setOutput envAll st3a "directsound" false).1.player = none := by
  decide

/-- C8 (amended): `set_output` rejects any mode outside the valid set
with `ValueError` before any mutation (the state is returned unchanged);
a request for the current mode is a no-op; for a valid new mode whose
engine rebuild fails, the output mode is rolled back to the previous
working mode and the failure is reported (printed, not raised), but the
engine has already been stopped, so the resulting state is exactly the
old state with playback halted (`player = none`) — playback is not left
intact; on a successful rebuild the change is observably atomic to
callers: the session keeps its playlist path, its track list, its
(re-clamped) index and its playback position, the player is running,
and only the output mode has changed. -/
theorem set_output_rollback (env : String → Bool) (st : PSt)
    (mode : String) (makeOK : Bool) (pl : String) :
    (mode ∉ AOUT_MODES →
       setOutput env st mode makeOK = (st, some PyErr.valueError)) ∧
    (mode ∈ AOUT_MODES → mode = st.aoutMode →
       setOutput env st mode makeOK = (st, none)) ∧
    (mode ∈ AOUT_MODES → mode ≠ st.aoutMode →
       setOutput env st mode false = ({ st with player := none }, none)) ∧
    (mode ∈ AOUT_MODES → mode ≠ st.aoutMode → st.plPath = some pl →
       (loadPlaylist env { st with aoutMode := mode, player := none }
          pl st.playlist).2 = none →
       (setOutput env st mode true).2 = none ∧
       (setOutput env st mode true).1.aoutMode = mode ∧
       (setOutput env st mode true).1.plPath = some pl ∧
       (setOutput env st mode true).1.playlist = st.playlist ∧
       (setOutput env st mode true).1.idx =
         pymin st.idx (pymax 0 ((st.playlist.length : Int) - 1)) ∧
       (setOutput env st mode true).1.position = st.position ∧
       (setOutput env st mode true).1.player.isSome = true) := by
    refine ⟨?_, ?_, ?_, ?_⟩
    · intro h
      simp [setOutput, h]
    · intro hm h
      subst h
      simp [setOutput, hm]
    · intro hm hne
      simp [setOutput, hm, hne, restartInstance]
    · intro hm hne hpl hlp
      obtain ⟨t, hload⟩ := loadPlaylist_ok_shape env
        { st with aoutMode := mode, player := none } pl st.playlist hlp
      rw [hpl] at hload
      have hso : setOutput env st mode true =
          ((flushHistory (markDirty
              { setMedia env
                  (lpState { st with aoutMode := mode, player := none } pl st.playlist) t
                  ((lpHist { st with aoutMode := mode, player := none } pl).position.getD 0) with
                idx := pymin st.idx (pymax 0 ((st.playlist.length : Int) - 1)),
                player := some ⟨t, st.position, env t⟩ } true)).1, none) := by
        simp [setOutput, hm, hne, restartInstance, hpl, hload, seek, setMedia,
          markDirty, PSt.position, PSt.snapshot, lpState_playlist]
      refine ⟨by rw [hso], ?_, ?_, ?_, ?_, ?_, ?_⟩
      · rw [hso]
        simp [flush_keeps_aoutMode, markDirty, setMedia, lpState_aoutMode]
      · rw [hso]
        simp [flush_keeps_plPath, markDirty, setMedia, lpState_plPath]
      · rw [hso]
        simp [flush_keeps_playlist, markDirty, setMedia, lpState_playlist]
      · rw [hso]
        simp [flush_keeps_idx, markDirty, setMedia]
      · rw [hso]
        simp [PSt.position, flush_keeps_player, markDirty, setMedia]
      · rw [hso]
        simp [flush_keeps_player, markDirty, setMedia]

/-- Witness for C8 (amended): `"bogus"` is rejected without mutation,
`"default"` on a default-mode session is a no-op, a failing rebuild for
`"directsound"` ends with the mode rolled back and the player stopped,
and a successful rebuild for `"directsound"` is observably atomic: same
index and position, player running, only the mode changed. -/
theorem set_output_rollback_wit :
    setOutput envAll st3a "bogus" true = (st3a, some PyErr.valueError) ∧
    setOutput envAll st3a "default" true = (st3a, none) ∧
    setOutput envAll st3a "directsound" false = ({ st3a with player := none }, none) ∧
    (setOutput envAll st3a "directsound" true).2 = none ∧
    (setOutput envAll st3a "directsound" true).1.aoutMode = "directsound" ∧
    (setOutput envAll st3a "directsound" true).1.idx =
      pymin st3a.idx (pymax 0 ((st3a.playlist.length : Int) - 1)) ∧
    (setOutput envAll st3a "directsound" true).1.position = st3a.position ∧
    (setOutput envAll st3a "directsound" true).1.player.isSome = true := by
  have hs := (set_output_rollback envAll st3a "directsound" true "pl").2.2.2
    (by decide) (by decide) (by rfl) (by decide)
  exact ⟨(set_output_rollback envAll st3a "bogus" true "pl").1 (by decide),
    (set_output_rollback envAll st3a "default" true "pl").2.1 (by decide) (by rfl),
    (set_output_rollback envAll st3a "directsound" false "pl").2.2.1 (by decide) (by decide),
    hs.1, hs.2.1, hs.2.2.2.2.1, hs.2.2.2.2.2.1, hs.2.2.2.2.2.2⟩

end PlaylistPlayer
